import Mathlib

/-!
Verification development for the `memory_track` Vulkan layer
(`src/memory_track.cpp`).

Shallow embedding conventions:
  * Dispatchable and non-dispatchable handles (`VkInstance`, `VkDevice`,
    `VkPhysicalDevice`, `VkDeviceMemory`) are opaque machine words, modelled
    as `Nat`.
  * Function pointers are modelled as `Nat` values; `0` is the null pointer.
    Invoking a null function pointer is undefined behaviour in the source,
    modelled as the `none` outcome of an `Option`-returning step.
  * `GetKey` reads the loader's dispatch pointer out of the opaque handle
    (`*(void **)inst`, line 26-29); the handle layout is environment
    determined, so the embedding threads an explicit `getKey : Nat → Nat`.
  * `std::map` is modelled as an association list with unique keys.
    `operator[]` on a missing key value-initializes the mapped value; reads
    through `operator[]` are modelled by `mapGetD` returning the
    value-initialized default.
  * `std::vector::operator[]` performs no bounds check; an out-of-bounds
    access is undefined behaviour, modelled as the `none` branch of `vecAt`.
  * `uint64_t` counters are `Nat` kept below `2 ^ 64`, with every arithmetic
    update reduced modulo `U64 = 2 ^ 64` exactly where the C++ wraps.
  * Calls forwarded to the next link of the chain are oracle inputs (the
    driver's result code and output handle are parameters of the embedded
    entry point) and are recorded in an event list.
-/

/-- 2 ^ 64, the modulus of `uint64_t` arithmetic. -/
def U64 : Nat := 18446744073709551616

/-- `VkResult` is a C enum (int). -/
abbrev VkResult := Int

def VK_SUCCESS : VkResult := 0

def VK_ERROR_INITIALIZATION_FAILED : VkResult := -3

def VK_ERROR_OUT_OF_DEVICE_MEMORY : VkResult := -2

/-- `sType` marker of the loader's device-chain link record. -/
def VK_STRUCTURE_TYPE_LOADER_DEVICE_CREATE_INFO : Nat := 48

/-- `function` marker of a layer link-info record. -/
def VK_LAYER_LINK_INFO : Nat := 0

def VK_MEMORY_HEAP_DEVICE_LOCAL_BIT : Nat := 1

def VK_API_VERSION_1_0 : Nat := 4194304

/-- Association-list lookup: the unique entry for a key, if present.
Models `std::map::find`. -/
def mapFind {β : Type} : List (Nat × β) → Nat → Option β
  | [], _ => none
  | (k2, v) :: rest, k => if k2 = k then some v else mapFind rest k

/-- Association-list insert-or-assign, as `std::map::operator[] = v`:
replaces the entry when the key is present, otherwise adds it. -/
def mapInsert {β : Type} : List (Nat × β) → Nat → β → List (Nat × β)
  | [], k, v => [(k, v)]
  | (k2, v2) :: rest, k, v =>
      if k2 = k then (k, v) :: rest else (k2, v2) :: mapInsert rest k v

/-- Association-list erase, as `std::map::erase(key)`. -/
def mapErase {β : Type} : List (Nat × β) → Nat → List (Nat × β)
  | [], _ => []
  | (k2, v) :: rest, k =>
      if k2 = k then mapErase rest k else (k2, v) :: mapErase rest k

/-- Read through `std::map::operator[]`: the stored value when the key is
present, otherwise the value-initialized default that `operator[]`
fabricates (and inserts; the insertion is observable in the source only on
paths that fault or erase the entry immediately afterwards, so the embedding
returns the fabricated value without re-threading the map). -/
def mapGetD {β : Type} (m : List (Nat × β)) (k : Nat) (d : β) : β :=
  (mapFind m k).getD d

/-- Unchecked `std::vector::operator[]` read, made total by returning
`none` on the out-of-bounds (undefined behaviour) branch. -/
def vecAt {α : Type} : List α → Nat → Option α
  | [], _ => none
  | x :: _, 0 => some x
  | _ :: rest, n + 1 => vecAt rest n

/-- Indexed read with an explicit default (used only where the source reads
a value it has already checked or where the default models
value-initialized memory). -/
def vecAtD {α : Type} (l : List α) (i : Nat) (d : α) : α :=
  (vecAt l i).getD d

/-- Write through `std::vector::operator[]` at an index known to be in
bounds (out-of-bounds writes never survive in the embedding because the
corresponding read already faulted). -/
def vecSet {α : Type} : List α → Nat → α → List α
  | [], _, _ => []
  | _ :: rest, 0, a => a :: rest
  | x :: rest, n + 1, a => x :: vecSet rest n a

/-- `VkMemoryType`: static per-type properties (lines 36-41 use
`memoryType.heapIndex` and, in reporting, `propertyFlags`). -/
structure VkMemoryType where
  propertyFlags : Nat
  heapIndex : Nat
  deriving DecidableEq

/-- `VkMemoryHeap`: static per-heap properties. -/
structure VkMemoryHeap where
  size : Nat
  flags : Nat
  deriving DecidableEq

/-- Lines 36-41. -/
structure MemoryTypeInfo where
  memoryType : VkMemoryType
  currentUsage : Nat
  maximumUsage : Nat
  deriving DecidableEq

/-- Lines 43-48. -/
structure MemoryHeapInfo where
  memoryHeap : VkMemoryHeap
  currentUsage : Nat
  maximumUsage : Nat
  deriving DecidableEq

/-- Lines 50-54. -/
structure DeviceStats where
  memoryTypes : List MemoryTypeInfo
  memoryHeaps : List MemoryHeapInfo
  deriving DecidableEq

/-- The value-initialized `DeviceStats` fabricated by
`devices[device]` on a missing key. -/
def emptyDeviceStats : DeviceStats :=
  { memoryTypes := [], memoryHeaps := [] }

/-- The fields of `VkMemoryAllocateInfo` the layer reads (line 220 stores
the whole struct; only `allocationSize` and `memoryTypeIndex` are ever
consulted). -/
structure VkMemoryAllocateInfo where
  allocationSize : Nat
  memoryTypeIndex : Nat
  deriving DecidableEq

/-- The value-initialized record `allocations[memory]` fabricates for an
unknown handle (all fields zero). -/
def defaultAllocateInfo : VkMemoryAllocateInfo :=
  { allocationSize := 0, memoryTypeIndex := 0 }

/-- The instance dispatch table captured at lines 96-99; entries are
function-pointer values. -/
structure VkLayerInstanceDispatchTable where
  GetInstanceProcAddr : Nat
  DestroyInstance : Nat
  EnumerateDeviceExtensionProperties : Nat
  deriving DecidableEq

/-- The device dispatch table captured at lines 151-155. -/
structure VkLayerDispatchTable where
  GetDeviceProcAddr : Nat
  DestroyDevice : Nat
  AllocateMemory : Nat
  FreeMemory : Nat
  deriving DecidableEq

/-- Zero-initialized instance table, as value-initialized by
`instance_dispatch[key]` on a missing key: all entries null. -/
def defaultInstanceTable : VkLayerInstanceDispatchTable :=
  { GetInstanceProcAddr := 0, DestroyInstance := 0,
    EnumerateDeviceExtensionProperties := 0 }

/-- Zero-initialized device table, as value-initialized by
`device_dispatch[key]` on a missing key: all entries null. -/
def defaultDeviceTable : VkLayerDispatchTable :=
  { GetDeviceProcAddr := 0, DestroyDevice := 0, AllocateMemory := 0,
    FreeMemory := 0 }

/-- `instance_dispatch[k]` (lines 298, 348): `operator[]` yields the stored
table, or the value-initialized all-null table when `k` was never
published. -/
def instanceDispatchAt (m : List (Nat × VkLayerInstanceDispatchTable))
    (k : Nat) : VkLayerInstanceDispatchTable :=
  mapGetD m k defaultInstanceTable

/-- `device_dispatch[k]` (lines 217, 248, 324): `operator[]` yields the
stored table, or the value-initialized all-null table when `k` was never
published. -/
def deviceDispatchAt (m : List (Nat × VkLayerDispatchTable))
    (k : Nat) : VkLayerDispatchTable :=
  mapGetD m k defaultDeviceTable

/-- The four process-wide maps of the layer (lines 32-33, 56, 60). -/
structure LayerState where
  instance_dispatch : List (Nat × VkLayerInstanceDispatchTable)
  device_dispatch : List (Nat × VkLayerDispatchTable)
  devices : List (Nat × DeviceStats)
  allocations : List (Nat × VkMemoryAllocateInfo)
  deriving DecidableEq

/-- Calls the layer actually issues to the rest of the chain; each carries
the function-pointer value invoked. -/
inductive Event where
  | fwdCreateDevice (p : Nat)
  | queryMemoryProperties (p : Nat)
  | fwdDestroyInstance (p : Nat)
  | fwdDestroyDevice (p : Nat)
  | fwdAllocateMemory (p : Nat)
  | fwdFreeMemory (p : Nat)
  | fwdGetInstanceProcAddr (p : Nat)
  | fwdGetDeviceProcAddr (p : Nat)
  deriving DecidableEq

/-- Lines 220-231: the success-branch bookkeeping of
`MemoryTrack_AllocateMemory`.  `stats` is the (by-reference) entry
`devices[device]`, `allocs` the global `allocations` map, `mem` the handle
the driver returned in `*pMemory`.  The two vector subscripts are
unchecked in the source; their out-of-bounds branch is the `none`
outcome. -/
def allocUpdate (stats : DeviceStats)
    (allocs : List (Nat × VkMemoryAllocateInfo)) (mem : Nat)
    (info : VkMemoryAllocateInfo) :
    Option (DeviceStats × List (Nat × VkMemoryAllocateInfo)) :=
  let allocs1 := mapInsert allocs mem info
  match vecAt stats.memoryTypes info.memoryTypeIndex with
  | none => none
  | some memoryTypeInfo =>
    match vecAt stats.memoryHeaps memoryTypeInfo.memoryType.heapIndex with
    | none => none
    | some memoryHeapInfo =>
      let tCur := (memoryTypeInfo.currentUsage + info.allocationSize) % U64
      let hCur := (memoryHeapInfo.currentUsage + info.allocationSize) % U64
      let tMax := if memoryTypeInfo.maximumUsage < tCur then tCur
                  else memoryTypeInfo.maximumUsage
      let hMax := if memoryHeapInfo.maximumUsage < hCur then hCur
                  else memoryHeapInfo.maximumUsage
      some ({ memoryTypes := vecSet stats.memoryTypes info.memoryTypeIndex
                { memoryTypeInfo with currentUsage := tCur, maximumUsage := tMax },
              memoryHeaps := vecSet stats.memoryHeaps
                memoryTypeInfo.memoryType.heapIndex
                { memoryHeapInfo with currentUsage := hCur, maximumUsage := hMax } },
            allocs1)

/-- Lines 241-246: the bookkeeping of `MemoryTrack_FreeMemory`.
`allocations[memory]` fabricates a value-initialized record for an unknown
handle (which line 246 then erases again); `uint64_t` subtraction wraps,
modelled as addition of the modular complement. -/
def freeUpdate (stats : DeviceStats)
    (allocs : List (Nat × VkMemoryAllocateInfo)) (mem : Nat) :
    Option (DeviceStats × List (Nat × VkMemoryAllocateInfo)) :=
  let allocInfo := mapGetD allocs mem defaultAllocateInfo
  match vecAt stats.memoryTypes allocInfo.memoryTypeIndex with
  | none => none
  | some memoryTypeInfo =>
    match vecAt stats.memoryHeaps memoryTypeInfo.memoryType.heapIndex with
    | none => none
    | some memoryHeapInfo =>
      let s := allocInfo.allocationSize % U64
      let tCur := (memoryTypeInfo.currentUsage + (U64 - s)) % U64
      let hCur := (memoryHeapInfo.currentUsage + (U64 - s)) % U64
      some ({ memoryTypes := vecSet stats.memoryTypes allocInfo.memoryTypeIndex
                { memoryTypeInfo with currentUsage := tCur },
              memoryHeaps := vecSet stats.memoryHeaps
                memoryTypeInfo.memoryType.heapIndex
                { memoryHeapInfo with currentUsage := hCur } },
            mapErase allocs mem)

/-- Lines 213-234.  The forwarded `AllocateMemory` call is an oracle: the
driver's result is `nextRes` and the handle it writes to `*pMemory` is
`nextMem`.  Calling a null table entry (the case of a never-published key)
is the `none` outcome. -/
def MemoryTrack_AllocateMemory (getKey : Nat → Nat) (s : LayerState)
    (device : Nat) (info : VkMemoryAllocateInfo) (nextRes : VkResult)
    (nextMem : Nat) : Option (LayerState × VkResult × List Event) :=
  let table := deviceDispatchAt s.device_dispatch (getKey device)
  if table.AllocateMemory = 0 then none
  else
    let res := nextRes
    let ev := [Event.fwdAllocateMemory table.AllocateMemory]
    if res = VK_SUCCESS then
      let stats := mapGetD s.devices device emptyDeviceStats
      match allocUpdate stats s.allocations nextMem info with
      | none => none
      | some (stats2, allocs2) =>
          some ({ s with devices := mapInsert s.devices device stats2,
                         allocations := allocs2 }, res, ev)
    else
      some (s, res, ev)

/-- Lines 236-249.  Bookkeeping happens first (lines 241-246), then the
free is forwarded through `device_dispatch[GetKey(device)]` (line 248). -/
def MemoryTrack_FreeMemory (getKey : Nat → Nat) (s : LayerState)
    (device : Nat) (memory : Nat) : Option (LayerState × List Event) :=
  let stats := mapGetD s.devices device emptyDeviceStats
  match freeUpdate stats s.allocations memory with
  | none => none
  | some (stats2, allocs2) =>
    let table := deviceDispatchAt s.device_dispatch (getKey device)
    if table.FreeMemory = 0 then none
    else
      some ({ s with devices := mapInsert s.devices device stats2,
                     allocations := allocs2 },
            [Event.fwdFreeMemory table.FreeMemory])

/-- Lines 112-116: `MemoryTrack_DestroyInstance` only erases the registry
entry; no call is forwarded to the next link (the captured
`DestroyInstance` entry is never invoked), hence the empty event list. -/
def MemoryTrack_DestroyInstance (getKey : Nat → Nat) (s : LayerState)
    (inst : Nat) : LayerState × List Event :=
  ({ s with instance_dispatch := mapErase s.instance_dispatch (getKey inst) },
   [])

/-- One line of the per-type report plus the two totals printed by
`MemoryTrack_DestroyDevice` (lines 186-207). -/
structure DeviceReport where
  typeLines : List (Nat × Nat)
  heapLines : List Nat
  sumDevice : Nat
  sumHost : Nat
  deriving DecidableEq

/-- Lines 180-211.  `devices[device]` fabricates a value-initialized empty
entry when the key is missing (which line 209 then erases).  The two
totals are `uint64_t` accumulators.  Like `DestroyInstance`, the function
never forwards the destroy call to the next link. -/
def MemoryTrack_DestroyDevice (getKey : Nat → Nat) (s : LayerState)
    (device : Nat) : LayerState × DeviceReport × List Event :=
  let deviceStats := mapGetD s.devices device emptyDeviceStats
  let typeLines := deviceStats.memoryTypes.map
    (fun typeInfo => (typeInfo.maximumUsage, typeInfo.memoryType.heapIndex))
  let heapLines := deviceStats.memoryHeaps.map
    (fun heapInfo => heapInfo.maximumUsage)
  let sumDevice := deviceStats.memoryHeaps.foldl
    (fun acc heapInfo =>
      if heapInfo.memoryHeap.flags &&& VK_MEMORY_HEAP_DEVICE_LOCAL_BIT ≠ 0
      then (acc + heapInfo.maximumUsage) % U64 else acc) 0
  let sumHost := deviceStats.memoryHeaps.foldl
    (fun acc heapInfo =>
      if heapInfo.memoryHeap.flags &&& VK_MEMORY_HEAP_DEVICE_LOCAL_BIT ≠ 0
      then acc else (acc + heapInfo.maximumUsage) % U64) 0
  ({ s with devices := mapErase s.devices device,
            device_dispatch := mapErase s.device_dispatch (getKey device) },
   { typeLines := typeLines, heapLines := heapLines,
     sumDevice := sumDevice, sumHost := sumHost },
   [])

/-- The fields of `VkPhysicalDeviceMemoryProperties` the layer reads
(lines 163-174): the two counts and the two fixed-size property arrays,
modelled by lists. -/
structure VkPhysicalDeviceMemoryProperties where
  memoryTypeCount : Nat
  memoryTypes : List VkMemoryType
  memoryHeapCount : Nat
  memoryHeaps : List VkMemoryHeap

/-- Lines 167-174: size a `DeviceStats` to a reported topology and copy
the static per-type / per-heap properties, with all counters
value-initialized to zero. -/
def statsFromProperties (p : VkPhysicalDeviceMemoryProperties) : DeviceStats :=
  { memoryTypes := (List.range p.memoryTypeCount).map fun i =>
      { memoryType := vecAtD p.memoryTypes i { propertyFlags := 0, heapIndex := 0 },
        currentUsage := 0, maximumUsage := 0 },
    memoryHeaps := (List.range p.memoryHeapCount).map fun i =>
      { memoryHeap := vecAtD p.memoryHeaps i { size := 0, flags := 0 },
        currentUsage := 0, maximumUsage := 0 } }

/-- One `VkLayerDeviceCreateInfo` record of the `pNext` chain walked at
lines 124-131.  The two resolvers are the `u.pLayerInfo` payload
(`pfnNextGetInstanceProcAddr` / `pfnNextGetDeviceProcAddr`), taking a
handle and a symbolic name to a function-pointer value.  The source also
advances `u.pLayerInfo` to the next element for the layers below (line
142); nothing later in this translation unit reads it back, so the
embedding does not re-thread the mutated chain. -/
structure VkLayerDeviceCreateInfo where
  sType : Nat
  function : Nat
  gipa : Nat → String → Nat
  gdpa : Nat → String → Nat

/-- Lines 127-131: step through the chain until the loader's link-info
record is found. -/
def findDeviceLinkInfo (chain : List VkLayerDeviceCreateInfo) :
    Option VkLayerDeviceCreateInfo :=
  chain.find? fun layerCreateInfo =>
    layerCreateInfo.sType = VK_STRUCTURE_TYPE_LOADER_DEVICE_CREATE_INFO &&
    layerCreateInfo.function = VK_LAYER_LINK_INFO

/-- Lines 118-178.  The forwarded `vkCreateDevice` is an oracle: `nextRes`
is the driver's result, `nextDevice` the handle written to `*pDevice`.
On success the device dispatch table is captured and published; then the
source resolves `vkGetPhysicalDeviceMemoryProperties` but never invokes it
(no `Event.queryMemoryProperties` is ever emitted), reads the
never-written local `memoryProperties` — indeterminate stack contents,
modelled by the oracle `junkMemoryProperties` — sizes a local
`DeviceStats` from it, and returns without ever storing that record in
`devices`. -/
def MemoryTrack_CreateDevice (getKey : Nat → Nat) (s : LayerState)
    (physicalDevice : Nat) (chain : List VkLayerDeviceCreateInfo)
    (nextRes : VkResult) (nextDevice : Nat)
    (junkMemoryProperties : VkPhysicalDeviceMemoryProperties) :
    Option (LayerState × VkResult × List Event) :=
  match findDeviceLinkInfo chain with
  | none => some (s, VK_ERROR_INITIALIZATION_FAILED, [])
  | some layerCreateInfo =>
    let gipa := layerCreateInfo.gipa
    let gdpa := layerCreateInfo.gdpa
    let createFunc := gipa 0 "vkCreateDevice"
    if createFunc = 0 then none
    else
      let ret := nextRes
      let ev := [Event.fwdCreateDevice createFunc]
      if ret = VK_SUCCESS then
        let dispatchTable : VkLayerDispatchTable :=
          { GetDeviceProcAddr := gdpa nextDevice "vkGetDeviceProcAddr",
            DestroyDevice := gdpa nextDevice "vkDestroyDevice",
            AllocateMemory := gdpa nextDevice "vkAllocateMemory",
            FreeMemory := gdpa nextDevice "vkFreeMemory" }
        let s1 := { s with
          device_dispatch := mapInsert s.device_dispatch (getKey nextDevice) dispatchTable }
        let getMemoryProperties := gipa 0 "vkGetPhysicalDeviceMemoryProperties"
        let memoryProperties := junkMemoryProperties
        let deviceStats := statsFromProperties memoryProperties
        -- `getMemoryProperties` is resolved but never called, and
        -- `deviceStats` is a local that is dropped: `s1.devices` is
        -- returned unmodified.
        some (s1, ret, ev)
      else
        some (s, ret, ev)

/-- The fields of `VkLayerProperties` written at lines 261-264. -/
structure VkLayerProperties where
  layerName : String
  description : String
  implementationVersion : Nat
  specVersion : Nat
  deriving DecidableEq

/-- Lines 254-268.  The two pointer parameters are modelled by their
null-ness; the returned pair holds the values written through them
(`none` when the corresponding pointer is null and nothing is written). -/
def MemoryTrack_EnumerateInstanceLayerProperties (hasPropertyCount : Bool)
    (hasProperties : Bool) : VkResult × Option Nat × Option VkLayerProperties :=
  (VK_SUCCESS,
   if hasPropertyCount then some 1 else none,
   if hasProperties then
     some { layerName := "VK_LAYER_NXT_MemoryTrack",
            description := "Layer to track and report Vulkan memory allocations",
            implementationVersion := 1,
            specVersion := VK_API_VERSION_1_0 }
   else none)

/-- Lines 270-274: delegates to the instance-scope enumeration, ignoring
`physicalDevice`. -/
def MemoryTrack_EnumerateDeviceLayerProperties (physicalDevice : Nat)
    (hasPropertyCount : Bool) (hasProperties : Bool) :
    VkResult × Option Nat × Option VkLayerProperties :=
  MemoryTrack_EnumerateInstanceLayerProperties hasPropertyCount hasProperties

/-- The result of a proc-address resolver: one of the layer's own
intercepting functions, or whatever the next link's resolver returned. -/
inductive ProcAddrResult where
  | layerFn (name : String)
  | nextFn (p : Nat)
  deriving DecidableEq

/-- The names intercepted by `MemoryTrack_GetDeviceProcAddr`
(lines 314-320), in source order. -/
def deviceInterceptNames : List String :=
  ["vkGetDeviceProcAddr", "vkEnumerateDeviceLayerProperties",
   "vkEnumerateDeviceExtensionProperties", "vkCreateDevice",
   "vkDestroyDevice", "vkAllocateMemory", "vkFreeMemory"]

/-- The names intercepted by `MemoryTrack_GetInstanceProcAddr`
(lines 331-344): the instance-scope names followed by the device-scope
names. -/
def instanceInterceptNames : List String :=
  ["vkGetInstanceProcAddr", "vkEnumerateInstanceLayerProperties",
   "vkEnumerateInstanceExtensionProperties", "vkCreateInstance",
   "vkDestroyInstance"] ++ deviceInterceptNames

/-- Lines 311-326.  For an unrecognized name the resolution is forwarded
through `device_dispatch[GetKey(device)].GetDeviceProcAddr`; on a
never-published key that entry is the value-initialized null pointer and
the indirect call is undefined behaviour (`none`).  `nextPtr` is the
oracle result of the next link's resolver. -/
def MemoryTrack_GetDeviceProcAddr (getKey : Nat → Nat) (s : LayerState)
    (device : Nat) (pName : String) (nextPtr : Nat) :
    Option (ProcAddrResult × List Event) :=
  if deviceInterceptNames.contains pName then
    some (ProcAddrResult.layerFn pName, [])
  else
    let table := deviceDispatchAt s.device_dispatch (getKey device)
    if table.GetDeviceProcAddr = 0 then none
    else some (ProcAddrResult.nextFn nextPtr,
               [Event.fwdGetDeviceProcAddr table.GetDeviceProcAddr])

/-- Lines 328-350, the instance-scope analogue of
`MemoryTrack_GetDeviceProcAddr`. -/
def MemoryTrack_GetInstanceProcAddr (getKey : Nat → Nat) (s : LayerState)
    (inst : Nat) (pName : String) (nextPtr : Nat) :
    Option (ProcAddrResult × List Event) :=
  if instanceInterceptNames.contains pName then
    some (ProcAddrResult.layerFn pName, [])
  else
    let table := instanceDispatchAt s.instance_dispatch (getKey inst)
    if table.GetInstanceProcAddr = 0 then none
    else some (ProcAddrResult.nextFn nextPtr,
               [Event.fwdGetInstanceProcAddr table.GetInstanceProcAddr])

/-- One successful accounting event on a single device: an allocation the
driver accepted (`mem` is the handle returned in `*pMemory`, `info` the
request), or a free of `mem`.  These are exactly the operations whose
bookkeeping is `allocUpdate` / `freeUpdate`. -/
inductive Op where
  | alloc (mem : Nat) (info : VkMemoryAllocateInfo)
  | free (mem : Nat)
  deriving DecidableEq

/-- The accounting state of one device: its `DeviceStats` entry plus the
allocation-record map. -/
structure AccState where
  stats : DeviceStats
  allocs : List (Nat × VkMemoryAllocateInfo)
  deriving DecidableEq

/-- One bookkeeping step (the success branch of
`MemoryTrack_AllocateMemory`, or the body of `MemoryTrack_FreeMemory`). -/
def accStep (st : AccState) : Op → Option AccState
  | Op.alloc mem info =>
      (allocUpdate st.stats st.allocs mem info).map fun out =>
        { stats := out.1, allocs := out.2 }
  | Op.free mem =>
      (freeUpdate st.stats st.allocs mem).map fun out =>
        { stats := out.1, allocs := out.2 }

/-- Run a sequence of accounting operations; `none` as soon as one step
hits undefined behaviour. -/
def runOps (st : AccState) : List Op → Option AccState
  | [] => some st
  | op :: rest =>
      match accStep st op with
      | none => none
      | some st2 => runOps st2 rest

/-- Total number of bytes requested by the allocations of a sequence. -/
def totalAllocBytes : List Op → Nat
  | [] => 0
  | Op.alloc _ info :: rest => info.allocationSize + totalAllocBytes rest
  | Op.free _ :: rest => totalAllocBytes rest

/-- Every free of the sequence matches a live allocation record: starting
from the record map `allocs`, each `Op.free mem` finds a record for `mem`
that an earlier successful allocation inserted and no earlier free
consumed. -/
def matchedFrom (allocs : List (Nat × VkMemoryAllocateInfo)) : List Op → Bool
  | [] => true
  | Op.alloc mem info :: rest => matchedFrom (mapInsert allocs mem info) rest
  | Op.free mem :: rest =>
      (mapFind allocs mem).isSome && matchedFrom (mapErase allocs mem) rest

/-- All usage counters of a `DeviceStats` are zero (the state a freshly
created device is specified to start in). -/
def zeroedStats (stats : DeviceStats) : Bool :=
  stats.memoryTypes.all
    (fun t => t.currentUsage == 0 && t.maximumUsage == 0) &&
  stats.memoryHeaps.all
    (fun hp => hp.currentUsage == 0 && hp.maximumUsage == 0)

/-- Sum of `currentUsage` over the member types of heap `h`. -/
def heapMemberSum : List MemoryTypeInfo → Nat → Nat
  | [], _ => 0
  | t :: rest, h =>
      (if t.memoryType.heapIndex = h then t.currentUsage else 0) +
        heapMemberSum rest h

/-- Sum of `currentUsage` over all types. -/
def sumCur : List MemoryTypeInfo → Nat
  | [] => 0
  | t :: rest => t.currentUsage + sumCur rest

/-- Sum of the recorded sizes (as the `uint64_t` values actually stored)
of the live allocation records whose `memoryTypeIndex` is `i`. -/
def liveTypeSum : List (Nat × VkMemoryAllocateInfo) → Nat → Nat
  | [], _ => 0
  | (_, info) :: rest, i =>
      (if info.memoryTypeIndex = i then info.allocationSize % U64 else 0) +
        liveTypeSum rest i

/-- The keys of an association list are pairwise distinct (true of every
`std::map` and preserved by `mapInsert` / `mapErase`). -/
def keysNodup {β : Type} (m : List (Nat × β)) : Prop :=
  (m.map Prod.fst).Nodup

/-- Value-initialized `MemoryTypeInfo`, used as the read default beyond the
vector's length (such reads never occur on surviving paths). -/
def defaultMemoryTypeInfo : MemoryTypeInfo :=
  { memoryType := { propertyFlags := 0, heapIndex := 0 },
    currentUsage := 0, maximumUsage := 0 }

/-- Value-initialized `MemoryHeapInfo`. -/
def defaultMemoryHeapInfo : MemoryHeapInfo :=
  { memoryHeap := { size := 0, flags := 0 }, currentUsage := 0,
    maximumUsage := 0 }

theorem vecAt_eq_some_vecAtD {α : Type} (l : List α) (i : Nat) (d : α)
    (h : i < l.length) : vecAt l i = some (vecAtD l i d) := by
  induction l generalizing i with
  | nil => simp at h
  | cons x rest ih =>
    cases i with
    | zero => simp [vecAt, vecAtD]
    | succ n =>
      simp only [List.length_cons, Nat.succ_lt_succ_iff] at h
      simpa [vecAt, vecAtD] using ih n h

theorem vecAtD_of_vecAt {α : Type} {l : List α} {i : Nat} {v : α} (d : α)
    (h : vecAt l i = some v) : vecAtD l i d = v := by
  simp [vecAtD, h]

theorem length_vecSet {α : Type} (l : List α) (i : Nat) (a : α) :
    (vecSet l i a).length = l.length := by
  induction l generalizing i with
  | nil => simp [vecSet]
  | cons x rest ih =>
    cases i with
    | zero => simp [vecSet]
    | succ n => simp [vecSet, ih]

theorem vecAt_vecSet_self {α : Type} {l : List α} {i : Nat} {v : α} (a : α)
    (h : vecAt l i = some v) : vecAt (vecSet l i a) i = some a := by
  induction l generalizing i with
  | nil => simp [vecAt] at h
  | cons x rest ih =>
    cases i with
    | zero => simp [vecSet, vecAt]
    | succ n => simpa [vecSet, vecAt] using ih (i := n) (by simpa [vecAt] using h)

theorem vecAt_vecSet_ne {α : Type} (l : List α) {i j : Nat} (a : α)
    (h : i ≠ j) : vecAt (vecSet l i a) j = vecAt l j := by
  induction l generalizing i j with
  | nil => simp [vecSet]
  | cons x rest ih =>
    cases i with
    | zero =>
      cases j with
      | zero => exact absurd rfl h
      | succ m => simp [vecSet, vecAt]
    | succ n =>
      cases j with
      | zero => simp [vecSet, vecAt]
      | succ m =>
        simp only [vecSet, vecAt]
        exact ih (fun hnm => h (by simp [hnm]))

theorem vecAtD_vecSet_self {α : Type} {l : List α} {i : Nat} {v : α}
    (a d : α) (h : vecAt l i = some v) :
    vecAtD (vecSet l i a) i d = a := by
  simp [vecAtD, vecAt_vecSet_self a h]

theorem vecAtD_vecSet_ne {α : Type} (l : List α) {i j : Nat} (a d : α)
    (h : i ≠ j) : vecAtD (vecSet l i a) j d = vecAtD l j d := by
  simp [vecAtD, vecAt_vecSet_ne l a h]

theorem heapMemberSum_vecSet {l : List MemoryTypeInfo} {i : Nat}
    {t : MemoryTypeInfo} (a : MemoryTypeInfo) (h2 : Nat)
    (ht : vecAt l i = some t) (hstat : a.memoryType = t.memoryType) :
    heapMemberSum (vecSet l i a) h2 +
      (if t.memoryType.heapIndex = h2 then t.currentUsage else 0) =
    heapMemberSum l h2 +
      (if t.memoryType.heapIndex = h2 then a.currentUsage else 0) := by
  induction l generalizing i with
  | nil => simp [vecAt] at ht
  | cons x rest ih =>
    cases i with
    | zero =>
      simp only [vecAt] at ht
      cases ht
      simp only [vecSet, heapMemberSum, hstat]
      omega
    | succ n =>
      simp only [vecAt] at ht
      have := ih (i := n) ht
      simp only [vecSet, heapMemberSum]
      omega

theorem le_heapMemberSum {l : List MemoryTypeInfo} {i : Nat}
    {t : MemoryTypeInfo} (ht : vecAt l i = some t) :
    t.currentUsage ≤ heapMemberSum l t.memoryType.heapIndex := by
  induction l generalizing i with
  | nil => simp [vecAt] at ht
  | cons x rest ih =>
    cases i with
    | zero =>
      simp only [vecAt] at ht
      cases ht
      simp only [heapMemberSum, if_pos]
      omega
    | succ n =>
      simp only [vecAt] at ht
      have := ih (i := n) ht
      simp only [heapMemberSum]
      omega

theorem heapMemberSum_le_sumCur (l : List MemoryTypeInfo) (h2 : Nat) :
    heapMemberSum l h2 ≤ sumCur l := by
  induction l with
  | nil => simp [heapMemberSum, sumCur]
  | cons x rest ih =>
    simp only [heapMemberSum, sumCur]
    split <;> omega

theorem heapMemberSum_of_zeroed {l : List MemoryTypeInfo}
    (h : ∀ t ∈ l, t.currentUsage = 0) (h2 : Nat) :
    heapMemberSum l h2 = 0 := by
  induction l with
  | nil => rfl
  | cons x rest ih =>
    have hx := h x (by simp)
    have hr := ih (fun t ht => h t (by simp [ht]))
    simp only [heapMemberSum, hx, hr, if_pos, if_neg]
    split <;> rfl

theorem sumCur_of_zeroed {l : List MemoryTypeInfo}
    (h : ∀ t ∈ l, t.currentUsage = 0) : sumCur l = 0 := by
  induction l with
  | nil => rfl
  | cons x rest ih =>
    have hx := h x (by simp)
    have hr := ih (fun t ht => h t (by simp [ht]))
    simp [sumCur, hx, hr]

theorem sumCur_vecSet {l : List MemoryTypeInfo} {i : Nat}
    {t : MemoryTypeInfo} (a : MemoryTypeInfo) (ht : vecAt l i = some t) :
    sumCur (vecSet l i a) + t.currentUsage = sumCur l + a.currentUsage := by
  induction l generalizing i with
  | nil => simp [vecAt] at ht
  | cons x rest ih =>
    cases i with
    | zero =>
      simp only [vecAt] at ht
      cases ht
      simp only [vecSet, sumCur]
      omega
    | succ n =>
      simp only [vecAt] at ht
      have := ih (i := n) ht
      simp only [vecSet, sumCur]
      omega

theorem le_sumCur {l : List MemoryTypeInfo} {i : Nat} {t : MemoryTypeInfo}
    (ht : vecAt l i = some t) : t.currentUsage ≤ sumCur l := by
  induction l generalizing i with
  | nil => simp [vecAt] at ht
  | cons x rest ih =>
    cases i with
    | zero =>
      simp only [vecAt] at ht
      cases ht
      simp only [sumCur]
      omega
    | succ n =>
      simp only [vecAt] at ht
      have := ih (i := n) ht
      simp only [sumCur]
      omega
theorem mapFind_eq_none_of_not_mem_keys {β : Type} {m : List (Nat × β)}
    {k : Nat} (h : k ∉ m.map Prod.fst) : mapFind m k = none := by
  induction m with
  | nil => rfl
  | cons e rest ih =>
    obtain ⟨k2, v⟩ := e
    simp only [List.map, List.mem_cons] at h
    have hk2 : k2 ≠ k := fun he => h (Or.inl he.symm)
    simp only [mapFind, if_neg hk2]
    exact ih (fun he => h (Or.inr he))

theorem mapErase_of_find_none {β : Type} {m : List (Nat × β)} {k : Nat}
    (h : mapFind m k = none) : mapErase m k = m := by
  induction m with
  | nil => rfl
  | cons e rest ih =>
    obtain ⟨k2, v⟩ := e
    by_cases hk2 : k2 = k
    · simp [mapFind, hk2] at h
    · simp only [mapFind, if_neg hk2] at h
      simp only [mapErase, if_neg hk2, ih h]

theorem liveTypeSum_mapInsert_absent {m : List (Nat × VkMemoryAllocateInfo)}
    {k : Nat} (v : VkMemoryAllocateInfo) (i : Nat)
    (hk : mapFind m k = none) :
    liveTypeSum (mapInsert m k v) i =
      liveTypeSum m i +
        (if v.memoryTypeIndex = i then v.allocationSize % U64 else 0) := by
  induction m with
  | nil => simp [mapInsert, liveTypeSum]
  | cons e rest ih =>
    obtain ⟨k2, w⟩ := e
    by_cases hk2 : k2 = k
    · simp [mapFind, hk2] at hk
    · simp only [mapFind, if_neg hk2] at hk
      simp only [mapInsert, if_neg hk2, liveTypeSum, ih hk]
      omega

theorem liveTypeSum_mapInsert_present {m : List (Nat × VkMemoryAllocateInfo)}
    {k : Nat} {w : VkMemoryAllocateInfo} (v : VkMemoryAllocateInfo) (i : Nat)
    (hk : mapFind m k = some w) :
    liveTypeSum (mapInsert m k v) i +
        (if w.memoryTypeIndex = i then w.allocationSize % U64 else 0) =
      liveTypeSum m i +
        (if v.memoryTypeIndex = i then v.allocationSize % U64 else 0) := by
  induction m with
  | nil => simp [mapFind] at hk
  | cons e rest ih =>
    obtain ⟨k2, w2⟩ := e
    by_cases hk2 : k2 = k
    · simp only [mapFind, if_pos hk2] at hk
      cases hk
      simp only [mapInsert, if_pos hk2, liveTypeSum]
      omega
    · simp only [mapFind, if_neg hk2] at hk
      simp only [mapInsert, if_neg hk2, liveTypeSum]
      have := ih hk
      omega

theorem liveTypeSum_mapErase_present {m : List (Nat × VkMemoryAllocateInfo)}
    {k : Nat} {w : VkMemoryAllocateInfo} (i : Nat) (hnd : keysNodup m)
    (hk : mapFind m k = some w) :
    liveTypeSum (mapErase m k) i +
        (if w.memoryTypeIndex = i then w.allocationSize % U64 else 0) =
      liveTypeSum m i := by
  induction m with
  | nil => simp [mapFind] at hk
  | cons e rest ih =>
    obtain ⟨k2, w2⟩ := e
    simp only [keysNodup, List.map, List.nodup_cons] at hnd
    by_cases hk2 : k2 = k
    · simp only [mapFind, if_pos hk2] at hk
      cases hk
      have hrest : mapFind rest k = none := by
        apply mapFind_eq_none_of_not_mem_keys
        intro hmem
        exact hnd.1 (by simpa [hk2] using hmem)
      simp only [mapErase, if_pos hk2, mapErase_of_find_none hrest,
        liveTypeSum]
      omega
    · simp only [mapFind, if_neg hk2] at hk
      have := ih hnd.2 hk
      simp only [mapErase, if_neg hk2, liveTypeSum]
      omega

theorem size_le_liveTypeSum {m : List (Nat × VkMemoryAllocateInfo)} {k : Nat}
    {w : VkMemoryAllocateInfo} (hk : mapFind m k = some w) :
    w.allocationSize % U64 ≤ liveTypeSum m w.memoryTypeIndex := by
  induction m with
  | nil => simp [mapFind] at hk
  | cons e rest ih =>
    obtain ⟨k2, w2⟩ := e
    by_cases hk2 : k2 = k
    · simp only [mapFind, if_pos hk2] at hk
      cases hk
      simp only [liveTypeSum, if_pos]
      omega
    · simp only [mapFind, if_neg hk2] at hk
      have := ih hk
      simp only [liveTypeSum]
      omega

theorem mem_keys_mapInsert {β : Type} {m : List (Nat × β)} {a k : Nat}
    {v : β} (h : a ∈ (mapInsert m k v).map Prod.fst) :
    a ∈ m.map Prod.fst ∨ a = k := by
  induction m with
  | nil => simpa [mapInsert] using h
  | cons e rest ih =>
    obtain ⟨k2, w⟩ := e
    by_cases hk2 : k2 = k
    · simp only [mapInsert, if_pos hk2, List.map, List.mem_cons] at h
      rcases h with h | h
      · exact Or.inr h
      · exact Or.inl (List.mem_cons_of_mem _ h)
    · simp only [mapInsert, if_neg hk2, List.map, List.mem_cons] at h
      rcases h with h | h
      · exact Or.inl (by simp [h])
      · rcases ih h with h2 | h2
        · exact Or.inl (List.mem_cons_of_mem _ h2)
        · exact Or.inr h2

theorem mem_keys_mapErase {β : Type} {m : List (Nat × β)} {a k : Nat}
    (h : a ∈ (mapErase m k).map Prod.fst) : a ∈ m.map Prod.fst := by
  induction m with
  | nil => simp [mapErase] at h
  | cons e rest ih =>
    obtain ⟨k2, w⟩ := e
    by_cases hk2 : k2 = k
    · simp only [mapErase, if_pos hk2] at h
      exact List.mem_cons_of_mem _ (ih h)
    · simp only [mapErase, if_neg hk2, List.map, List.mem_cons] at h
      rcases h with h | h
      · simp [h]
      · exact List.mem_cons_of_mem _ (ih h)

theorem keysNodup_mapInsert {β : Type} {m : List (Nat × β)} (k : Nat) (v : β)
    (hnd : keysNodup m) : keysNodup (mapInsert m k v) := by
  induction m with
  | nil => simp [mapInsert, keysNodup]
  | cons e rest ih =>
    obtain ⟨k2, w⟩ := e
    simp only [keysNodup, List.map, List.nodup_cons] at hnd
    by_cases hk2 : k2 = k
    · subst hk2
      simp only [mapInsert, if_pos rfl, keysNodup, List.map, List.nodup_cons]
      exact hnd
    · simp only [mapInsert, if_neg hk2, keysNodup, List.map, List.nodup_cons]
      refine ⟨fun hmem => ?_, ih hnd.2⟩
      rcases mem_keys_mapInsert hmem with h | h
      · exact hnd.1 h
      · exact hk2 h

theorem keysNodup_mapErase {β : Type} {m : List (Nat × β)} (k : Nat)
    (hnd : keysNodup m) : keysNodup (mapErase m k) := by
  induction m with
  | nil => simp [mapErase, keysNodup]
  | cons e rest ih =>
    obtain ⟨k2, w⟩ := e
    simp only [keysNodup, List.map, List.nodup_cons] at hnd
    by_cases hk2 : k2 = k
    · simp only [mapErase, if_pos hk2]
      exact ih hnd.2
    · simp only [mapErase, if_neg hk2, keysNodup, List.map, List.nodup_cons]
      exact ⟨fun hmem => hnd.1 (mem_keys_mapErase hmem), ih hnd.2⟩

theorem vecAt_lt_length {α : Type} {l : List α} {i : Nat} {v : α}
    (h : vecAt l i = some v) : i < l.length := by
  induction l generalizing i with
  | nil => simp [vecAt] at h
  | cons x rest ih =>
    cases i with
    | zero => simp [List.length_cons]
    | succ n =>
      simp only [vecAt] at h
      have := ih h
      simp only [List.length_cons]
      omega

theorem u64_sub_mod {c s2 : Nat} (hs : s2 ≤ c) (hc : c < U64) :
    (c + (U64 - s2)) % U64 = c - s2 := by
  have hsU : s2 < U64 := Nat.lt_of_le_of_lt hs hc
  have h1 : c + (U64 - s2) = U64 + (c - s2) := by omega
  rw [h1, Nat.add_mod_left]
  exact Nat.mod_eq_of_lt (by omega)

/-- The inductive invariant of the accounting state machine, proved below
to be preserved by `accStep` whenever the bytes still to be allocated fit
in `budget`:
  * the allocation-record keys are unique (as in any `std::map`);
  * each type's `currentUsage` dominates the total recorded size of its
    live allocation records;
  * the grand total of the type counters plus the remaining allocation
    budget has not reached `2 ^ 64` (so no counter update wraps);
  * each heap's `currentUsage` equals the sum of its member types'
    `currentUsage`;
  * every `maximumUsage` dominates its `currentUsage`. -/
structure AccInv (budget : Nat) (st : AccState) : Prop where
  nodup : keysNodup st.allocs
  live_le : ∀ i, liveTypeSum st.allocs i ≤
    (vecAtD st.stats.memoryTypes i defaultMemoryTypeInfo).currentUsage
  budget_ok : sumCur st.stats.memoryTypes + budget < U64
  heap_eq : ∀ h2, h2 < st.stats.memoryHeaps.length →
    (vecAtD st.stats.memoryHeaps h2 defaultMemoryHeapInfo).currentUsage =
      heapMemberSum st.stats.memoryTypes h2
  type_max : ∀ i,
    (vecAtD st.stats.memoryTypes i defaultMemoryTypeInfo).currentUsage ≤
      (vecAtD st.stats.memoryTypes i defaultMemoryTypeInfo).maximumUsage
  heap_max : ∀ h2,
    (vecAtD st.stats.memoryHeaps h2 defaultMemoryHeapInfo).currentUsage ≤
      (vecAtD st.stats.memoryHeaps h2 defaultMemoryHeapInfo).maximumUsage

theorem accInv_alloc {b : Nat} {st st2 : AccState} {mem : Nat}
    {info : VkMemoryAllocateInfo}
    (hinv : AccInv (info.allocationSize + b) st)
    (hstep : accStep st (Op.alloc mem info) = some st2) :
    AccInv b st2 := by
  simp only [accStep] at hstep
  cases hau : allocUpdate st.stats st.allocs mem info with
  | none => rw [hau] at hstep; simp at hstep
  | some out =>
    rw [hau] at hstep
    simp only [Option.map_some', Option.some.injEq] at hstep
    subst hstep
    simp only [allocUpdate] at hau
    cases hT : vecAt st.stats.memoryTypes info.memoryTypeIndex with
    | none => simp [hT] at hau
    | some t =>
      simp only [hT] at hau
      cases hH : vecAt st.stats.memoryHeaps t.memoryType.heapIndex with
      | none => simp [hH] at hau
      | some hp =>
        simp only [hH, Option.some.injEq] at hau
        subst hau
        dsimp only
        have hidx := vecAt_lt_length hT
        have hhidx := vecAt_lt_length hH
        have htD : vecAtD st.stats.memoryTypes info.memoryTypeIndex
            defaultMemoryTypeInfo = t := vecAtD_of_vecAt _ hT
        have hhD : vecAtD st.stats.memoryHeaps t.memoryType.heapIndex
            defaultMemoryHeapInfo = hp := vecAtD_of_vecAt _ hH
        have htsum := le_sumCur hT
        have hbud := hinv.budget_ok
        have hmemle := heapMemberSum_le_sumCur st.stats.memoryTypes
          t.memoryType.heapIndex
        have hhcur : hp.currentUsage =
            heapMemberSum st.stats.memoryTypes t.memoryType.heapIndex := by
          rw [← hhD]; exact hinv.heap_eq _ hhidx
        have htexact : (t.currentUsage + info.allocationSize) % U64 =
            t.currentUsage + info.allocationSize :=
          Nat.mod_eq_of_lt (by omega)
        have hhexact : (hp.currentUsage + info.allocationSize) % U64 =
            hp.currentUsage + info.allocationSize :=
          Nat.mod_eq_of_lt (by omega)
        rw [htexact, hhexact]
        refine ⟨keysNodup_mapInsert _ _ hinv.nodup, ?_, ?_, ?_, ?_, ?_⟩
        · -- live_le
          intro i
          dsimp only
          by_cases hi : info.memoryTypeIndex = i
          · subst hi
            rw [vecAtD_vecSet_self _ _ hT]
            dsimp only
            have hle := hinv.live_le info.memoryTypeIndex
            rw [htD] at hle
            have hmod : info.allocationSize % U64 ≤ info.allocationSize :=
              Nat.mod_le _ _
            cases hfind : mapFind st.allocs mem with
            | none =>
              rw [liveTypeSum_mapInsert_absent info _ hfind, if_pos rfl]
              omega
            | some w =>
              have hident := liveTypeSum_mapInsert_present
                (w := w) info info.memoryTypeIndex hfind
              rw [if_pos rfl] at hident
              omega
          · rw [vecAtD_vecSet_ne _ _ _ hi]
            have hle := hinv.live_le i
            cases hfind : mapFind st.allocs mem with
            | none =>
              rw [liveTypeSum_mapInsert_absent info _ hfind, if_neg hi]
              omega
            | some w =>
              have hident := liveTypeSum_mapInsert_present (w := w) info i hfind
              rw [if_neg hi] at hident
              omega
        · -- budget_ok
          dsimp only
          have hsum := sumCur_vecSet
            { t with currentUsage := t.currentUsage + info.allocationSize,
                     maximumUsage := if t.maximumUsage <
                         t.currentUsage + info.allocationSize then
                       t.currentUsage + info.allocationSize
                     else t.maximumUsage } hT
          dsimp only at hsum
          omega
        · -- heap_eq
          intro h2 hlen2
          dsimp only at hlen2 ⊢
          rw [length_vecSet] at hlen2
          have hms := heapMemberSum_vecSet
            { t with currentUsage := t.currentUsage + info.allocationSize,
                     maximumUsage := if t.maximumUsage <
                         t.currentUsage + info.allocationSize then
                       t.currentUsage + info.allocationSize
                     else t.maximumUsage } h2 hT rfl
          dsimp only at hms
          by_cases hh2 : t.memoryType.heapIndex = h2
          · subst hh2
            simp only [if_pos] at hms
            rw [vecAtD_vecSet_self _ _ hH]
            dsimp only
            omega
          · simp only [if_neg hh2] at hms
            rw [vecAtD_vecSet_ne _ _ _ hh2]
            have := hinv.heap_eq h2 hlen2
            omega
        · -- type_max
          intro i
          dsimp only
          by_cases hi : info.memoryTypeIndex = i
          · subst hi
            rw [vecAtD_vecSet_self _ _ hT]
            dsimp only
            split <;> omega
          · rw [vecAtD_vecSet_ne _ _ _ hi]
            exact hinv.type_max i
        · -- heap_max
          intro h2
          dsimp only
          by_cases hh2 : t.memoryType.heapIndex = h2
          · subst hh2
            rw [vecAtD_vecSet_self _ _ hH]
            dsimp only
            split <;> omega
          · rw [vecAtD_vecSet_ne _ _ _ hh2]
            exact hinv.heap_max h2

theorem accInv_free {b : Nat} {st st2 : AccState} {mem : Nat}
    (hinv : AccInv b st) (hstep : accStep st (Op.free mem) = some st2) :
    AccInv b st2 := by
  simp only [accStep] at hstep
  cases hfu : freeUpdate st.stats st.allocs mem with
  | none => rw [hfu] at hstep; simp at hstep
  | some out =>
    rw [hfu] at hstep
    simp only [Option.map_some', Option.some.injEq] at hstep
    subst hstep
    simp only [freeUpdate] at hfu
    cases hT : vecAt st.stats.memoryTypes
        (mapGetD st.allocs mem defaultAllocateInfo).memoryTypeIndex with
    | none => simp [hT] at hfu
    | some t =>
      simp only [hT] at hfu
      cases hH : vecAt st.stats.memoryHeaps t.memoryType.heapIndex with
      | none => simp [hH] at hfu
      | some hp =>
        simp only [hH, Option.some.injEq] at hfu
        subst hfu
        have hidx := vecAt_lt_length hT
        have hhidx := vecAt_lt_length hH
        have htD : vecAtD st.stats.memoryTypes
            (mapGetD st.allocs mem defaultAllocateInfo).memoryTypeIndex
            defaultMemoryTypeInfo = t := vecAtD_of_vecAt _ hT
        have hhD : vecAtD st.stats.memoryHeaps t.memoryType.heapIndex
            defaultMemoryHeapInfo = hp := vecAtD_of_vecAt _ hH
        have htsum := le_sumCur hT
        have hbud := hinv.budget_ok
        have hmemle := heapMemberSum_le_sumCur st.stats.memoryTypes
          t.memoryType.heapIndex
        have hmemge := le_heapMemberSum hT
        have hhcur : hp.currentUsage =
            heapMemberSum st.stats.memoryTypes t.memoryType.heapIndex := by
          rw [← hhD]; exact hinv.heap_eq _ hhidx
        have hr : ∀ i, liveTypeSum (mapErase st.allocs mem) i +
            (if (mapGetD st.allocs mem defaultAllocateInfo).memoryTypeIndex = i
             then (mapGetD st.allocs mem defaultAllocateInfo).allocationSize % U64
             else 0) = liveTypeSum st.allocs i := by
          intro i
          cases hfind : mapFind st.allocs mem with
          | none =>
            rw [mapErase_of_find_none hfind]
            simp [mapGetD, hfind, defaultAllocateInfo]
          | some w =>
            simp only [mapGetD, hfind, Option.getD_some]
            exact liveTypeSum_mapErase_present i hinv.nodup hfind
        have hsle : (mapGetD st.allocs mem defaultAllocateInfo).allocationSize % U64 ≤
            liveTypeSum st.allocs
              (mapGetD st.allocs mem defaultAllocateInfo).memoryTypeIndex := by
          cases hfind : mapFind st.allocs mem with
          | none => simp [mapGetD, hfind, defaultAllocateInfo]
          | some w =>
            simp only [mapGetD, hfind, Option.getD_some]
            exact size_le_liveTypeSum hfind
        have hlive := hinv.live_le
          (mapGetD st.allocs mem defaultAllocateInfo).memoryTypeIndex
        rw [htD] at hlive
        have hscur : (mapGetD st.allocs mem defaultAllocateInfo).allocationSize % U64 ≤
            t.currentUsage := le_trans hsle hlive
        have htexact : (t.currentUsage +
            (U64 - (mapGetD st.allocs mem defaultAllocateInfo).allocationSize % U64)) % U64 =
            t.currentUsage -
              (mapGetD st.allocs mem defaultAllocateInfo).allocationSize % U64 :=
          u64_sub_mod hscur (by omega)
        have hshcur : (mapGetD st.allocs mem defaultAllocateInfo).allocationSize % U64 ≤
            hp.currentUsage := by omega
        have hhexact : (hp.currentUsage +
            (U64 - (mapGetD st.allocs mem defaultAllocateInfo).allocationSize % U64)) % U64 =
            hp.currentUsage -
              (mapGetD st.allocs mem defaultAllocateInfo).allocationSize % U64 :=
          u64_sub_mod hshcur (by omega)
        rw [htexact, hhexact]
        refine ⟨keysNodup_mapErase _ hinv.nodup, ?_, ?_, ?_, ?_, ?_⟩
        · -- live_le
          intro i
          dsimp only
          by_cases hi : (mapGetD st.allocs mem defaultAllocateInfo).memoryTypeIndex = i
          · subst hi
            rw [vecAtD_vecSet_self _ _ hT]
            dsimp only
            have h1 := hr (mapGetD st.allocs mem defaultAllocateInfo).memoryTypeIndex
            rw [if_pos rfl] at h1
            omega
          · rw [vecAtD_vecSet_ne _ _ _ hi]
            have h1 := hr i
            rw [if_neg hi] at h1
            have := hinv.live_le i
            omega
        · -- budget_ok
          dsimp only
          have hsum := sumCur_vecSet
            { t with currentUsage := t.currentUsage -
                (mapGetD st.allocs mem defaultAllocateInfo).allocationSize % U64 } hT
          dsimp only at hsum
          omega
        · -- heap_eq
          intro h2 hlen2
          dsimp only at hlen2 ⊢
          rw [length_vecSet] at hlen2
          have hms := heapMemberSum_vecSet
            { t with currentUsage := t.currentUsage -
                (mapGetD st.allocs mem defaultAllocateInfo).allocationSize % U64 }
            h2 hT rfl
          dsimp only at hms
          by_cases hh2 : t.memoryType.heapIndex = h2
          · subst hh2
            simp only [if_pos] at hms
            rw [vecAtD_vecSet_self _ _ hH]
            dsimp only
            omega
          · simp only [if_neg hh2] at hms
            rw [vecAtD_vecSet_ne _ _ _ hh2]
            have := hinv.heap_eq h2 hlen2
            omega
        · -- type_max
          intro i
          dsimp only
          by_cases hi : (mapGetD st.allocs mem defaultAllocateInfo).memoryTypeIndex = i
          · subst hi
            rw [vecAtD_vecSet_self _ _ hT]
            dsimp only
            have := hinv.type_max
              (mapGetD st.allocs mem defaultAllocateInfo).memoryTypeIndex
            rw [htD] at this
            omega
          · rw [vecAtD_vecSet_ne _ _ _ hi]
            exact hinv.type_max i
        · -- heap_max
          intro h2
          dsimp only
          by_cases hh2 : t.memoryType.heapIndex = h2
          · subst hh2
            rw [vecAtD_vecSet_self _ _ hH]
            dsimp only
            have := hinv.heap_max t.memoryType.heapIndex
            rw [hhD] at this
            omega
          · rw [vecAtD_vecSet_ne _ _ _ hh2]
            exact hinv.heap_max h2

theorem vecAt_mem {α : Type} {l : List α} {i : Nat} {v : α}
    (h : vecAt l i = some v) : v ∈ l := by
  induction l generalizing i with
  | nil => simp [vecAt] at h
  | cons x rest ih =>
    cases i with
    | zero =>
      simp only [vecAt, Option.some.injEq] at h
      simp [h]
    | succ n =>
      simp only [vecAt] at h
      exact List.mem_cons_of_mem _ (ih h)

theorem accInv_init {stats0 : DeviceStats} (budget : Nat)
    (hz : zeroedStats stats0 = true) (hbound : budget < U64) :
    AccInv budget { stats := stats0, allocs := [] } := by
  simp only [zeroedStats, Bool.and_eq_true, List.all_eq_true] at hz
  have htype0 : ∀ t ∈ stats0.memoryTypes,
      t.currentUsage = 0 ∧ t.maximumUsage = 0 := by
    intro t ht
    have := hz.1 t ht
    simp only [Bool.and_eq_true, beq_iff_eq] at this
    exact this
  have hheap0 : ∀ hp ∈ stats0.memoryHeaps,
      hp.currentUsage = 0 ∧ hp.maximumUsage = 0 := by
    intro hp hhp
    have := hz.2 hp hhp
    simp only [Bool.and_eq_true, beq_iff_eq] at this
    exact this
  have hcurT : ∀ i, (vecAtD stats0.memoryTypes i
      defaultMemoryTypeInfo).currentUsage = 0 := by
    intro i
    cases hv : vecAt stats0.memoryTypes i with
    | none => simp [vecAtD, hv, defaultMemoryTypeInfo]
    | some v =>
      rw [vecAtD_of_vecAt _ hv]
      exact (htype0 v (vecAt_mem hv)).1
  have hcurH : ∀ h2, (vecAtD stats0.memoryHeaps h2
      defaultMemoryHeapInfo).currentUsage = 0 := by
    intro h2
    cases hv : vecAt stats0.memoryHeaps h2 with
    | none => simp [vecAtD, hv, defaultMemoryHeapInfo]
    | some v =>
      rw [vecAtD_of_vecAt _ hv]
      exact (hheap0 v (vecAt_mem hv)).1
  refine ⟨by simp [keysNodup], ?_, ?_, ?_, ?_, ?_⟩
  · intro i
    simp only [liveTypeSum]
    omega
  · have := sumCur_of_zeroed (fun t ht => (htype0 t ht).1)
    dsimp only
    omega
  · intro h2 _
    rw [hcurH h2, heapMemberSum_of_zeroed (fun t ht => (htype0 t ht).1)]
  · intro i
    rw [hcurT i]
    exact Nat.zero_le _
  · intro h2
    rw [hcurH h2]
    exact Nat.zero_le _

theorem accInv_runOps {ops : List Op} : ∀ {st st2 : AccState},
    AccInv (totalAllocBytes ops) st → runOps st ops = some st2 →
    AccInv 0 st2 := by
  induction ops with
  | nil =>
    intro st st2 hinv hrun
    simp only [runOps, Option.some.injEq] at hrun
    subst hrun
    exact hinv
  | cons op rest ih =>
    intro st st2 hinv hrun
    simp only [runOps] at hrun
    cases hstep : accStep st op with
    | none => simp [hstep] at hrun
    | some stm =>
      simp only [hstep] at hrun
      cases op with
      | alloc mem info => exact ih (accInv_alloc hinv hstep) hrun
      | free mem => exact ih (accInv_free hinv hstep) hrun

theorem maxUsage_mono_step {st st2 : AccState} {op : Op}
    (hstep : accStep st op = some st2) :
    (∀ i, (vecAtD st.stats.memoryTypes i defaultMemoryTypeInfo).maximumUsage ≤
      (vecAtD st2.stats.memoryTypes i defaultMemoryTypeInfo).maximumUsage) ∧
    (∀ h2, (vecAtD st.stats.memoryHeaps h2 defaultMemoryHeapInfo).maximumUsage ≤
      (vecAtD st2.stats.memoryHeaps h2 defaultMemoryHeapInfo).maximumUsage) := by
  cases op with
  | alloc mem info =>
    simp only [accStep] at hstep
    cases hau : allocUpdate st.stats st.allocs mem info with
    | none => rw [hau] at hstep; simp at hstep
    | some out =>
      rw [hau] at hstep
      simp only [Option.map_some', Option.some.injEq] at hstep
      subst hstep
      simp only [allocUpdate] at hau
      cases hT : vecAt st.stats.memoryTypes info.memoryTypeIndex with
      | none => simp [hT] at hau
      | some t =>
        simp only [hT] at hau
        cases hH : vecAt st.stats.memoryHeaps t.memoryType.heapIndex with
        | none => simp [hH] at hau
        | some hp =>
          simp only [hH, Option.some.injEq] at hau
          subst hau
          constructor
          · intro i
            dsimp only
            by_cases hi : info.memoryTypeIndex = i
            · subst hi
              rw [vecAtD_of_vecAt defaultMemoryTypeInfo hT,
                vecAtD_vecSet_self _ _ hT]
              dsimp only
              split <;> omega
            · rw [vecAtD_vecSet_ne _ _ _ hi]
          · intro h2
            dsimp only
            by_cases hh2 : t.memoryType.heapIndex = h2
            · subst hh2
              rw [vecAtD_of_vecAt defaultMemoryHeapInfo hH,
                vecAtD_vecSet_self _ _ hH]
              dsimp only
              split <;> omega
            · rw [vecAtD_vecSet_ne _ _ _ hh2]
  | free mem =>
    simp only [accStep] at hstep
    cases hfu : freeUpdate st.stats st.allocs mem with
    | none => rw [hfu] at hstep; simp at hstep
    | some out =>
      rw [hfu] at hstep
      simp only [Option.map_some', Option.some.injEq] at hstep
      subst hstep
      simp only [freeUpdate] at hfu
      cases hT : vecAt st.stats.memoryTypes
          (mapGetD st.allocs mem defaultAllocateInfo).memoryTypeIndex with
      | none => simp [hT] at hfu
      | some t =>
        simp only [hT] at hfu
        cases hH : vecAt st.stats.memoryHeaps t.memoryType.heapIndex with
        | none => simp [hH] at hfu
        | some hp =>
          simp only [hH, Option.some.injEq] at hfu
          subst hfu
          constructor
          · intro i
            dsimp only
            by_cases hi : (mapGetD st.allocs mem
                defaultAllocateInfo).memoryTypeIndex = i
            · subst hi
              rw [vecAtD_of_vecAt defaultMemoryTypeInfo hT,
                vecAtD_vecSet_self _ _ hT]
            · rw [vecAtD_vecSet_ne _ _ _ hi]
          · intro h2
            dsimp only
            by_cases hh2 : t.memoryType.heapIndex = h2
            · subst hh2
              rw [vecAtD_of_vecAt defaultMemoryHeapInfo hH,
                vecAtD_vecSet_self _ _ hH]
            · rw [vecAtD_vecSet_ne _ _ _ hh2]

theorem maxUsage_mono_run {ops : List Op} : ∀ {st st2 : AccState},
    runOps st ops = some st2 →
    (∀ i, (vecAtD st.stats.memoryTypes i defaultMemoryTypeInfo).maximumUsage ≤
      (vecAtD st2.stats.memoryTypes i defaultMemoryTypeInfo).maximumUsage) ∧
    (∀ h2, (vecAtD st.stats.memoryHeaps h2 defaultMemoryHeapInfo).maximumUsage ≤
      (vecAtD st2.stats.memoryHeaps h2 defaultMemoryHeapInfo).maximumUsage) := by
  induction ops with
  | nil =>
    intro st st2 hrun
    simp only [runOps, Option.some.injEq] at hrun
    subst hrun
    exact ⟨fun i => le_refl _, fun h2 => le_refl _⟩
  | cons op rest ih =>
    intro st st2 hrun
    simp only [runOps] at hrun
    cases hstep : accStep st op with
    | none => simp [hstep] at hrun
    | some stm =>
      simp only [hstep] at hrun
      have h1 := maxUsage_mono_step hstep
      have h2 := ih hrun
      exact ⟨fun i => le_trans (h1.1 i) (h2.1 i),
             fun j => le_trans (h1.2 j) (h2.2 j)⟩

/-- A device dispatch table whose captured entries are all non-null, as
after a successful `CreateDevice` against a real driver. -/
def sampleTable : VkLayerDispatchTable :=
  { GetDeviceProcAddr := 1, DestroyDevice := 1, AllocateMemory := 1,
    FreeMemory := 1 }

/-- Memory type 0 of the concrete scenario: device-local, heap 0. -/
def sampleType0 : MemoryTypeInfo :=
  { memoryType := { propertyFlags := 1, heapIndex := 0 },
    currentUsage := 0, maximumUsage := 0 }

/-- Memory type 1 of the concrete scenario: not device-local, heap 1. -/
def sampleType1 : MemoryTypeInfo :=
  { memoryType := { propertyFlags := 0, heapIndex := 1 },
    currentUsage := 0, maximumUsage := 0 }

/-- Heap 0 of the concrete scenario: 256 MiB, device-local. -/
def sampleHeap0 : MemoryHeapInfo :=
  { memoryHeap := { size := 268435456, flags := 1 },
    currentUsage := 0, maximumUsage := 0 }

/-- Heap 1 of the concrete scenario: 512 MiB, not device-local. -/
def sampleHeap1 : MemoryHeapInfo :=
  { memoryHeap := { size := 536870912, flags := 0 },
    currentUsage := 0, maximumUsage := 0 }

/-- The zeroed two-type / two-heap `DeviceStats` of the spec's concrete
scenario (type 0 in heap 0, type 1 in heap 1). -/
def sampleStats : DeviceStats :=
  { memoryTypes := [sampleType0, sampleType1],
    memoryHeaps := [sampleHeap0, sampleHeap1] }

/-- A layer state in which device handle 1 is fully registered: its
dispatch table is published and its `DeviceStats` entry is present and
zeroed (the state the specification intends after `CreateDevice`). -/
def sampleState : LayerState :=
  { instance_dispatch := [], device_dispatch := [(1, sampleTable)],
    devices := [(1, sampleStats)], allocations := [] }

/-- A layer state with nothing registered at all. -/
def emptyLayerState : LayerState :=
  { instance_dispatch := [], device_dispatch := [], devices := [],
    allocations := [] }

/-- Claim C1 (code bug): for a successful forwarded CreateDevice the source
is claimed to query the memory topology through the instance-scope resolver
and retain a zeroed DeviceStats under the new device's handle; in fact the
returned state's `devices` map is exactly the input one (nothing is
retained, so nothing is retrievable for the new device) and no
memory-topology query event is ever emitted (the resolved
`vkGetPhysicalDeviceMemoryProperties` pointer is never invoked and the
local record built from the never-written `memoryProperties` is
dropped). -/
theorem c1_createDevice_drops_stats (getKey : Nat → Nat) (s : LayerState)
    (physicalDevice : Nat) (chain : List VkLayerDeviceCreateInfo)
    (link : VkLayerDeviceCreateInfo) (nextDevice : Nat)
    (junk : VkPhysicalDeviceMemoryProperties) (s2 : LayerState)
    (r : VkResult) (ev : List Event)
    (hlink : findDeviceLinkInfo chain = some link)
    (hcreate : link.gipa 0 "vkCreateDevice" ≠ 0)
    (hout : MemoryTrack_CreateDevice getKey s physicalDevice chain VK_SUCCESS
      nextDevice junk = some (s2, r, ev)) :
    s2.devices = s.devices ∧
    mapFind s2.devices nextDevice = mapFind s.devices nextDevice ∧
    (∀ p, Event.queryMemoryProperties p ∉ ev) := by
  simp only [MemoryTrack_CreateDevice, hlink, if_neg hcreate] at hout
  rw [if_pos trivial] at hout
  simp only [Option.some.injEq, Prod.mk.injEq] at hout
  obtain ⟨hs2, _, hev⟩ := hout
  subst hs2
  subst hev
  refine ⟨rfl, rfl, ?_⟩
  intro p hmem
  simp at hmem

/-- Concrete loader chain for the C1 witness: a single link-info record
whose resolvers answer every query with the non-null pointer 1. -/
def c1link : VkLayerDeviceCreateInfo :=
  { sType := VK_STRUCTURE_TYPE_LOADER_DEVICE_CREATE_INFO,
    function := VK_LAYER_LINK_INFO,
    gipa := fun _ _ => 1, gdpa := fun _ _ => 1 }

/-- Topology reported by a two-type, two-heap physical device (stands for
the indeterminate stack contents the source reads). -/
def c1junk : VkPhysicalDeviceMemoryProperties :=
  { memoryTypeCount := 2,
    memoryTypes := [{ propertyFlags := 1, heapIndex := 0 },
                    { propertyFlags := 0, heapIndex := 1 }],
    memoryHeapCount := 2,
    memoryHeaps := [{ size := 268435456, flags := 1 },
                    { size := 536870912, flags := 0 }] }

/-- The state the C1 witness call returns: the dispatch table for device 3
is published but the devices map is left untouched. -/
def c1expected : LayerState :=
  { instance_dispatch := [], device_dispatch := [(3, sampleTable)],
    devices := [], allocations := [] }

/-- Witness for C1: a fully successful concrete CreateDevice call after
which the devices map is still empty. -/
theorem c1_createDevice_drops_stats_witness :
    c1expected.devices = emptyLayerState.devices ∧
    mapFind c1expected.devices 3 = mapFind emptyLayerState.devices 3 ∧
    (∀ p, Event.queryMemoryProperties p ∉ [Event.fwdCreateDevice 1]) :=
  c1_createDevice_drops_stats (fun h => h) emptyLayerState 2 [c1link] c1link
    3 c1junk c1expected VK_SUCCESS [Event.fwdCreateDevice 1] rfl (by decide)
    rfl

/-- Claim C2 (code bug): the claim (and the spec) requires a free of a
handle with no live allocation record to be rejected or to fault; the
source instead silently accepts it.  On a state whose device is fully
registered with a zeroed two-type topology, freeing the never-allocated
handle 7 fabricates a value-initialized record via
`allocations[memory]`, subtracts zero from type 0 and heap 0, erases the
record again and forwards the free — returning normally with the state
unchanged. -/
theorem c2_free_unknown_handle_silently_accepted :
    mapFind sampleState.allocations 7 = none ∧
    MemoryTrack_FreeMemory (fun h => h) sampleState 1 7 =
      some (sampleState, [Event.fwdFreeMemory 1]) := by decide

/-- Claim C8 (code bug): DestroyInstance is claimed to invoke the next
link's captured destroy entry point; the source only erases the registry
entry and forwards nothing — the operation emits no event at all, in
particular no `fwdDestroyInstance`. -/
theorem c8_destroyInstance_never_forwards (getKey : Nat → Nat)
    (s : LayerState) (inst : Nat) :
    MemoryTrack_DestroyInstance getKey s inst =
      ({ s with instance_dispatch := mapErase s.instance_dispatch (getKey inst) },
       []) ∧
    (∀ p, Event.fwdDestroyInstance p ∉
      (MemoryTrack_DestroyInstance getKey s inst).2) := by
  refine ⟨rfl, ?_⟩
  intro p hmem
  simp [MemoryTrack_DestroyInstance] at hmem

/-- Claim C10: EnumerateDeviceLayerProperties ignores its physical-device
argument and behaves exactly as EnumerateInstanceLayerProperties: success,
count 1 written when the count pointer is non-null, and the fixed layer
name/description written when the properties pointer is non-null. -/
theorem c10_device_layer_props_equals_instance (physicalDevice pd2 : Nat)
    (hasPropertyCount hasProperties : Bool) :
    MemoryTrack_EnumerateDeviceLayerProperties physicalDevice
        hasPropertyCount hasProperties =
      MemoryTrack_EnumerateInstanceLayerProperties hasPropertyCount
        hasProperties ∧
    MemoryTrack_EnumerateDeviceLayerProperties physicalDevice
        hasPropertyCount hasProperties =
      MemoryTrack_EnumerateDeviceLayerProperties pd2 hasPropertyCount
        hasProperties ∧
    (MemoryTrack_EnumerateInstanceLayerProperties hasPropertyCount
        hasProperties).1 = VK_SUCCESS ∧
    (MemoryTrack_EnumerateInstanceLayerProperties hasPropertyCount
        hasProperties).2.1 = (if hasPropertyCount then some 1 else none) ∧
    (MemoryTrack_EnumerateInstanceLayerProperties hasPropertyCount
        hasProperties).2.2 =
      (if hasProperties then
        some { layerName := "VK_LAYER_NXT_MemoryTrack",
               description := "Layer to track and report Vulkan memory allocations",
               implementationVersion := 1,
               specVersion := VK_API_VERSION_1_0 }
       else none) :=
  ⟨rfl, rfl, rfl, rfl, rfl⟩

/-- Zeroed two-type topology whose both types live in the single heap 0
(used to overflow the heap counter while the type counters stay apart). -/
def c3stats : DeviceStats :=
  { memoryTypes :=
      [{ memoryType := { propertyFlags := 1, heapIndex := 0 },
         currentUsage := 0, maximumUsage := 0 },
       { memoryType := { propertyFlags := 0, heapIndex := 0 },
         currentUsage := 0, maximumUsage := 0 }],
    memoryHeaps :=
      [{ memoryHeap := { size := 0, flags := 1 },
         currentUsage := 0, maximumUsage := 0 }] }

/-- Two successful allocations of 2 ^ 63 bytes each, through the two types
of the same heap; the heap's `uint64_t` counter wraps to 0. -/
def c3ops : List Op :=
  [Op.alloc 1 { allocationSize := 9223372036854775808, memoryTypeIndex := 0 },
   Op.alloc 2 { allocationSize := 9223372036854775808, memoryTypeIndex := 1 }]

/-- Counterexample to claim C3 as stated: a sequence of successful
allocations (no frees, hence trivially matched) from the zeroed stats
after which heap 0's `currentUsage` (wrapped to 0) differs from the sum of
its member types' `currentUsage` (2 ^ 64). -/
theorem c3_counterexample :
    zeroedStats c3stats = true ∧
    matchedFrom [] c3ops = true ∧
    ((runOps { stats := c3stats, allocs := [] } c3ops).map fun st =>
      decide ((vecAtD st.stats.memoryHeaps 0 defaultMemoryHeapInfo).currentUsage =
        heapMemberSum st.stats.memoryTypes 0)) = some false := by decide

/-- Claim C3 (amended with the wraparound proviso the counterexample
forces): for every sequence of successful allocations and matching frees
from the zeroed stats whose total requested bytes stay below 2 ^ 64, at
every observation point (here: the end state of any such sequence, every
intermediate point being the end of a shorter such sequence) all per-type
and per-heap `currentUsage` values are non-negative and each heap's
`currentUsage` equals the sum of `currentUsage` over the member types whose
`heapIndex` designates it. -/
theorem c3_heap_sum_invariant (stats0 : DeviceStats) (ops : List Op)
    (st2 : AccState) (hz : zeroedStats stats0 = true)
    (hmatched : matchedFrom [] ops = true)
    (hbound : totalAllocBytes ops < U64)
    (hrun : runOps { stats := stats0, allocs := [] } ops = some st2) :
    (∀ i, 0 ≤ (vecAtD st2.stats.memoryTypes i
      defaultMemoryTypeInfo).currentUsage) ∧
    (∀ h2, 0 ≤ (vecAtD st2.stats.memoryHeaps h2
      defaultMemoryHeapInfo).currentUsage) ∧
    (∀ h2, h2 < st2.stats.memoryHeaps.length →
      (vecAtD st2.stats.memoryHeaps h2 defaultMemoryHeapInfo).currentUsage =
        heapMemberSum st2.stats.memoryTypes h2) :=
  have hinv := accInv_runOps (accInv_init (totalAllocBytes ops) hz hbound) hrun
  ⟨fun _ => Nat.zero_le _, fun _ => Nat.zero_le _, hinv.heap_eq⟩

/-- Operations of the C3/C4 witnesses: allocate 16 bytes of type 0, then
free it. -/
def c3wops : List Op :=
  [Op.alloc 1 { allocationSize := 16, memoryTypeIndex := 0 }, Op.free 1]

/-- The accounting state after `c3wops` from the zeroed scenario stats:
counters back at zero, maxima at 16. -/
def c3wfinal : AccState :=
  { stats :=
      { memoryTypes :=
          [{ memoryType := { propertyFlags := 1, heapIndex := 0 },
             currentUsage := 0, maximumUsage := 16 }, sampleType1],
        memoryHeaps :=
          [{ memoryHeap := { size := 268435456, flags := 1 },
             currentUsage := 0, maximumUsage := 16 }, sampleHeap1] },
    allocs := [] }

/-- Witness for the amended C3 at a concrete matched, bounded run. -/
theorem c3_heap_sum_invariant_witness :
    (∀ i, 0 ≤ (vecAtD c3wfinal.stats.memoryTypes i
      defaultMemoryTypeInfo).currentUsage) ∧
    (∀ h2, 0 ≤ (vecAtD c3wfinal.stats.memoryHeaps h2
      defaultMemoryHeapInfo).currentUsage) ∧
    (∀ h2, h2 < c3wfinal.stats.memoryHeaps.length →
      (vecAtD c3wfinal.stats.memoryHeaps h2 defaultMemoryHeapInfo).currentUsage =
        heapMemberSum c3wfinal.stats.memoryTypes h2) :=
  c3_heap_sum_invariant sampleStats c3wops c3wfinal (by decide) (by decide)
    (by decide) (by decide)

/-- Zeroed one-type / one-heap topology for the C4 counterexample. -/
def c4stats : DeviceStats :=
  { memoryTypes :=
      [{ memoryType := { propertyFlags := 1, heapIndex := 0 },
         currentUsage := 0, maximumUsage := 0 }],
    memoryHeaps :=
      [{ memoryHeap := { size := 0, flags := 1 },
         currentUsage := 0, maximumUsage := 0 }] }

/-- Allocate 2 ^ 63 and 2 ^ 63 + 4 bytes (the counter wraps to 4 and the
recorded maximum stays 2 ^ 63), then free the first allocation: the
wrapped subtraction raises `currentUsage` to 2 ^ 63 + 4, above
`maximumUsage`. -/
def c4ops : List Op :=
  [Op.alloc 1 { allocationSize := 9223372036854775808, memoryTypeIndex := 0 },
   Op.alloc 2 { allocationSize := 9223372036854775812, memoryTypeIndex := 0 },
   Op.free 1]

/-- Counterexample to claim C4 as stated: a sequence of successful
allocations and a matching free from the zeroed stats after which type 0's
`maximumUsage` (2 ^ 63) is strictly below its `currentUsage`
(2 ^ 63 + 4). -/
theorem c4_counterexample :
    zeroedStats c4stats = true ∧
    matchedFrom [] c4ops = true ∧
    ((runOps { stats := c4stats, allocs := [] } c4ops).map fun st =>
      decide ((vecAtD st.stats.memoryTypes 0 defaultMemoryTypeInfo).currentUsage ≤
        (vecAtD st.stats.memoryTypes 0 defaultMemoryTypeInfo).maximumUsage)) =
      some false := by decide

/-- Claim C4 (amended with the wraparound proviso the counterexample
forces): along every sequence of successful allocate/free operations from
the zeroed stats, (a) unconditionally, every per-type and per-heap
`maximumUsage` is monotonically non-decreasing — continuing from any
observation point with any further successful operations never lowers any
maximum — and (b) provided the sequence's total requested bytes stay
below 2 ^ 64, at every observation point every `maximumUsage` is at least
the corresponding `currentUsage`. -/
theorem c4_max_mono_and_dominates (stats0 : DeviceStats) (ops : List Op)
    (st : AccState) (hz : zeroedStats stats0 = true)
    (hrun : runOps { stats := stats0, allocs := [] } ops = some st) :
    (∀ (more : List Op) (st3 : AccState), runOps st more = some st3 →
      (∀ i, (vecAtD st.stats.memoryTypes i
          defaultMemoryTypeInfo).maximumUsage ≤
        (vecAtD st3.stats.memoryTypes i defaultMemoryTypeInfo).maximumUsage) ∧
      (∀ h2, (vecAtD st.stats.memoryHeaps h2
          defaultMemoryHeapInfo).maximumUsage ≤
        (vecAtD st3.stats.memoryHeaps h2 defaultMemoryHeapInfo).maximumUsage)) ∧
    (totalAllocBytes ops < U64 →
      (∀ i, (vecAtD st.stats.memoryTypes i
          defaultMemoryTypeInfo).currentUsage ≤
        (vecAtD st.stats.memoryTypes i defaultMemoryTypeInfo).maximumUsage) ∧
      (∀ h2, (vecAtD st.stats.memoryHeaps h2
          defaultMemoryHeapInfo).currentUsage ≤
        (vecAtD st.stats.memoryHeaps h2 defaultMemoryHeapInfo).maximumUsage)) :=
  ⟨fun _ _ hmore => maxUsage_mono_run hmore,
   fun hbound =>
    have hinv := accInv_runOps (accInv_init (totalAllocBytes ops) hz hbound)
      hrun
    ⟨hinv.type_max, hinv.heap_max⟩⟩

/-- The accounting state after allocating 16 bytes of type 0 from the
zeroed scenario stats. -/
def c4wmid : AccState :=
  { stats :=
      { memoryTypes :=
          [{ memoryType := { propertyFlags := 1, heapIndex := 0 },
             currentUsage := 16, maximumUsage := 16 }, sampleType1],
        memoryHeaps :=
          [{ memoryHeap := { size := 268435456, flags := 1 },
             currentUsage := 16, maximumUsage := 16 }, sampleHeap1] },
    allocs := [(1, { allocationSize := 16, memoryTypeIndex := 0 })] }

/-- Witness for the amended C4 at a concrete run: allocate 16 bytes, then
continue with the matching free. -/
theorem c4_max_mono_and_dominates_witness :
    ((∀ i, (vecAtD c4wmid.stats.memoryTypes i
        defaultMemoryTypeInfo).maximumUsage ≤
      (vecAtD c3wfinal.stats.memoryTypes i defaultMemoryTypeInfo).maximumUsage) ∧
     (∀ h2, (vecAtD c4wmid.stats.memoryHeaps h2
        defaultMemoryHeapInfo).maximumUsage ≤
      (vecAtD c3wfinal.stats.memoryHeaps h2 defaultMemoryHeapInfo).maximumUsage)) ∧
    ((∀ i, (vecAtD c4wmid.stats.memoryTypes i
        defaultMemoryTypeInfo).currentUsage ≤
      (vecAtD c4wmid.stats.memoryTypes i defaultMemoryTypeInfo).maximumUsage) ∧
     (∀ h2, (vecAtD c4wmid.stats.memoryHeaps h2
        defaultMemoryHeapInfo).currentUsage ≤
      (vecAtD c4wmid.stats.memoryHeaps h2 defaultMemoryHeapInfo).maximumUsage)) :=
  have h := c4_max_mono_and_dominates sampleStats
    [Op.alloc 1 { allocationSize := 16, memoryTypeIndex := 0 }] c4wmid
    (by decide) (by decide)
  ⟨h.1 [Op.free 1] c3wfinal (by decide), h.2 (by decide)⟩

/-- Counterexample to claim C5 as stated: the registry lookup the
intercepted entry points actually perform (`operator[]`) does not fail on
a key that was never published — it yields exactly the fabricated
value-initialized all-null table, in both scopes. -/
theorem c5_counterexample :
    deviceDispatchAt [] 5 = defaultDeviceTable ∧
    instanceDispatchAt [] 5 = defaultInstanceTable := by decide

/-- Claim C5 (amended): a dispatch-registry lookup (instance or device
scope) for a key with no published entry yields the value-initialized
all-null table instead of failing, and the operations that forward through
it — AllocateMemory, FreeMemory and the two proc-address resolvers invoked
on an unregistered handle — then fault at the indirect call through the
null function pointer (undefined behaviour) rather than proceeding
normally. -/
theorem c5_unregistered_lookup_fabricates_then_faults :
    (∀ (m : List (Nat × VkLayerDispatchTable)) (k : Nat),
      mapFind m k = none → deviceDispatchAt m k = defaultDeviceTable) ∧
    (∀ (m : List (Nat × VkLayerInstanceDispatchTable)) (k : Nat),
      mapFind m k = none → instanceDispatchAt m k = defaultInstanceTable) ∧
    (∀ (getKey : Nat → Nat) (s : LayerState) (device : Nat)
      (info : VkMemoryAllocateInfo) (nextRes : VkResult) (nextMem : Nat),
      mapFind s.device_dispatch (getKey device) = none →
      MemoryTrack_AllocateMemory getKey s device info nextRes nextMem =
        none) ∧
    (∀ (getKey : Nat → Nat) (s : LayerState) (device memory : Nat),
      mapFind s.device_dispatch (getKey device) = none →
      MemoryTrack_FreeMemory getKey s device memory = none) ∧
    (∀ (getKey : Nat → Nat) (s : LayerState) (device : Nat) (pName : String)
      (nextPtr : Nat),
      mapFind s.device_dispatch (getKey device) = none →
      deviceInterceptNames.contains pName = false →
      MemoryTrack_GetDeviceProcAddr getKey s device pName nextPtr = none) ∧
    (∀ (getKey : Nat → Nat) (s : LayerState) (inst : Nat) (pName : String)
      (nextPtr : Nat),
      mapFind s.instance_dispatch (getKey inst) = none →
      instanceInterceptNames.contains pName = false →
      MemoryTrack_GetInstanceProcAddr getKey s inst pName nextPtr = none) := by
  refine ⟨?_, ?_, ?_, ?_, ?_, ?_⟩
  · intro m k h
    simp [deviceDispatchAt, mapGetD, h]
  · intro m k h
    simp [instanceDispatchAt, mapGetD, h]
  · intro getKey s device info nextRes nextMem h
    have htab : deviceDispatchAt s.device_dispatch (getKey device) =
        defaultDeviceTable := by simp [deviceDispatchAt, mapGetD, h]
    simp [MemoryTrack_AllocateMemory, htab, defaultDeviceTable]
  · intro getKey s device memory h
    have htab : deviceDispatchAt s.device_dispatch (getKey device) =
        defaultDeviceTable := by simp [deviceDispatchAt, mapGetD, h]
    cases hfu : freeUpdate (mapGetD s.devices device emptyDeviceStats)
        s.allocations memory with
    | none => simp [MemoryTrack_FreeMemory, hfu]
    | some out =>
      obtain ⟨stats2, allocs2⟩ := out
      simp [MemoryTrack_FreeMemory, hfu, htab, defaultDeviceTable]
  · intro getKey s device pName nextPtr h hname
    have htab : deviceDispatchAt s.device_dispatch (getKey device) =
        defaultDeviceTable := by simp [deviceDispatchAt, mapGetD, h]
    simp only [MemoryTrack_GetDeviceProcAddr, htab, defaultDeviceTable]
    rw [if_neg (by simpa using hname)]
    rfl
  · intro getKey s inst pName nextPtr h hname
    have htab : instanceDispatchAt s.instance_dispatch (getKey inst) =
        defaultInstanceTable := by simp [instanceDispatchAt, mapGetD, h]
    simp only [MemoryTrack_GetInstanceProcAddr, htab, defaultInstanceTable]
    rw [if_neg (by simpa using hname)]
    rfl

/-- Witness for the amended C5: on the completely empty layer state every
unregistered-handle operation faults and the lookup yields the fabricated
default table. -/
theorem c5_unregistered_lookup_witness :
    deviceDispatchAt ([] : List (Nat × VkLayerDispatchTable)) 9 =
      defaultDeviceTable ∧
    MemoryTrack_AllocateMemory (fun h => h) emptyLayerState 1
      { allocationSize := 16, memoryTypeIndex := 0 } VK_SUCCESS 7 = none ∧
    MemoryTrack_FreeMemory (fun h => h) emptyLayerState 1 7 = none ∧
    MemoryTrack_GetDeviceProcAddr (fun h => h) emptyLayerState 1
      "vkQueueSubmit" 5 = none ∧
    MemoryTrack_GetInstanceProcAddr (fun h => h) emptyLayerState 1
      "vkQueueSubmit" 5 = none :=
  ⟨c5_unregistered_lookup_fabricates_then_faults.1 [] 9 rfl,
   c5_unregistered_lookup_fabricates_then_faults.2.2.1 (fun h => h)
     emptyLayerState 1 { allocationSize := 16, memoryTypeIndex := 0 }
     VK_SUCCESS 7 rfl,
   c5_unregistered_lookup_fabricates_then_faults.2.2.2.1 (fun h => h)
     emptyLayerState 1 7 rfl,
   c5_unregistered_lookup_fabricates_then_faults.2.2.2.2.1 (fun h => h)
     emptyLayerState 1 "vkQueueSubmit" 5 rfl (by decide),
   c5_unregistered_lookup_fabricates_then_faults.2.2.2.2.2 (fun h => h)
     emptyLayerState 1 "vkQueueSubmit" 5 rfl (by decide)⟩

/-- Claim C6: when the forwarded allocation reports any non-success
result, the allocations map and the device's per-type and per-heap
counters are untouched and the next link's result code is returned
verbatim. -/
theorem c6_alloc_failure_touches_nothing (getKey : Nat → Nat)
    (s : LayerState) (device : Nat) (info : VkMemoryAllocateInfo)
    (nextRes : VkResult) (nextMem : Nat) (s2 : LayerState) (r : VkResult)
    (ev : List Event) (hfail : nextRes ≠ VK_SUCCESS)
    (hout : MemoryTrack_AllocateMemory getKey s device info nextRes nextMem =
      some (s2, r, ev)) :
    s2.allocations = s.allocations ∧ s2.devices = s.devices ∧ r = nextRes := by
  simp only [MemoryTrack_AllocateMemory] at hout
  by_cases htab :
      (deviceDispatchAt s.device_dispatch (getKey device)).AllocateMemory = 0
  · rw [if_pos htab] at hout
    exact absurd hout (by simp)
  · rw [if_neg htab, if_neg hfail] at hout
    simp only [Option.some.injEq, Prod.mk.injEq] at hout
    obtain ⟨h1, h2, _⟩ := hout
    subst h1
    exact ⟨rfl, rfl, h2.symm⟩

/-- Witness for C6: the driver refuses with
VK_ERROR_OUT_OF_DEVICE_MEMORY and the registered state is returned
untouched with that exact result code. -/
theorem c6_alloc_failure_witness :
    sampleState.allocations = sampleState.allocations ∧
    sampleState.devices = sampleState.devices ∧
    VK_ERROR_OUT_OF_DEVICE_MEMORY = VK_ERROR_OUT_OF_DEVICE_MEMORY :=
  c6_alloc_failure_touches_nothing (fun h => h) sampleState 1
    { allocationSize := 16, memoryTypeIndex := 0 }
    VK_ERROR_OUT_OF_DEVICE_MEMORY 7 sampleState
    VK_ERROR_OUT_OF_DEVICE_MEMORY [Event.fwdAllocateMemory 1] (by decide)
    (by decide)

/-- The §8.5 scenario run through the full entry points from the
registered two-type / two-heap state: allocate 64 MiB of type 0 (handle
101), 32 MiB of type 1 (handle 102), free handle 101, allocate 16 MiB of
type 0 (handle 103), then destroy the device and keep its report. -/
def c7run : Option (LayerState × DeviceReport) :=
  (MemoryTrack_AllocateMemory (fun h => h) sampleState 1
    { allocationSize := 67108864, memoryTypeIndex := 0 } VK_SUCCESS
    101).bind fun a =>
  (MemoryTrack_AllocateMemory (fun h => h) a.1 1
    { allocationSize := 33554432, memoryTypeIndex := 1 } VK_SUCCESS
    102).bind fun b2 =>
  (MemoryTrack_FreeMemory (fun h => h) b2.1 1 101).bind fun c =>
  (MemoryTrack_AllocateMemory (fun h => h) c.1 1
    { allocationSize := 16777216, memoryTypeIndex := 0 } VK_SUCCESS
    103).map fun d =>
  (d.1, (MemoryTrack_DestroyDevice (fun h => h) d.1 1).2.1)

/-- Claim C7: the concrete scenario ends with type 0 at
currentUsage 16 MiB / maximumUsage 64 MiB, type 1 at 32 MiB / 32 MiB,
heap 0 maximum 64 MiB, heap 1 maximum 32 MiB, and the DestroyDevice
report totals 64 MiB device-local and 32 MiB host-visible. -/
theorem c7_scenario :
    (c7run.map fun p =>
      ((vecAtD (mapGetD p.1.devices 1 emptyDeviceStats).memoryTypes 0
          defaultMemoryTypeInfo).currentUsage,
       (vecAtD (mapGetD p.1.devices 1 emptyDeviceStats).memoryTypes 0
          defaultMemoryTypeInfo).maximumUsage,
       (vecAtD (mapGetD p.1.devices 1 emptyDeviceStats).memoryTypes 1
          defaultMemoryTypeInfo).currentUsage,
       (vecAtD (mapGetD p.1.devices 1 emptyDeviceStats).memoryTypes 1
          defaultMemoryTypeInfo).maximumUsage,
       (vecAtD (mapGetD p.1.devices 1 emptyDeviceStats).memoryHeaps 0
          defaultMemoryHeapInfo).maximumUsage,
       (vecAtD (mapGetD p.1.devices 1 emptyDeviceStats).memoryHeaps 1
          defaultMemoryHeapInfo).maximumUsage,
       p.2.sumDevice, p.2.sumHost)) =
      some (16777216, 67108864, 33554432, 33554432, 67108864, 33554432,
        67108864, 33554432) := by rfl

/-- Claim C9: in the success branch of AllocateMemory and in FreeMemory
the source subscripts `memoryTypes` at the request's (resp. the looked-up
record's) `memoryTypeIndex` and `memoryHeaps` at that type's `heapIndex`
without any bounds check.  The out-of-bounds branch of the embedded
Option-returning access is unreachable exactly under the precondition
that the devices map already holds, for this device, a DeviceStats whose
`memoryTypes` is longer than that index and whose `memoryHeaps` is longer
than that type's `heapIndex`: under the precondition both operations
complete, and the same allocation call on a state whose devices map lacks
the device faults on the very first subscript. -/
theorem c9_unchecked_indexing_in_bounds :
    (∀ (getKey : Nat → Nat) (s : LayerState) (device : Nat)
      (info : VkMemoryAllocateInfo) (nextMem : Nat) (stats : DeviceStats)
      (t : VkLayerDispatchTable),
      mapFind s.devices device = some stats →
      mapFind s.device_dispatch (getKey device) = some t →
      t.AllocateMemory ≠ 0 →
      info.memoryTypeIndex < stats.memoryTypes.length →
      (vecAtD stats.memoryTypes info.memoryTypeIndex
        defaultMemoryTypeInfo).memoryType.heapIndex <
          stats.memoryHeaps.length →
      (MemoryTrack_AllocateMemory getKey s device info VK_SUCCESS
        nextMem).isSome) ∧
    (∀ (getKey : Nat → Nat) (s : LayerState) (device memory : Nat)
      (stats : DeviceStats) (t : VkLayerDispatchTable),
      mapFind s.devices device = some stats →
      mapFind s.device_dispatch (getKey device) = some t →
      t.FreeMemory ≠ 0 →
      (mapGetD s.allocations memory defaultAllocateInfo).memoryTypeIndex <
        stats.memoryTypes.length →
      (vecAtD stats.memoryTypes
        (mapGetD s.allocations memory defaultAllocateInfo).memoryTypeIndex
        defaultMemoryTypeInfo).memoryType.heapIndex <
          stats.memoryHeaps.length →
      (MemoryTrack_FreeMemory getKey s device memory).isSome) ∧
    MemoryTrack_AllocateMemory (fun h => h)
      { instance_dispatch := [], device_dispatch := [(1, sampleTable)],
        devices := [], allocations := [] } 1
      { allocationSize := 16, memoryTypeIndex := 0 } VK_SUCCESS 7 = none := by
  refine ⟨?_, ?_, by decide⟩
  · intro getKey s device info nextMem stats t hdev htab hptr hidx hheap
    have htabeq : deviceDispatchAt s.device_dispatch (getKey device) = t := by
      simp [deviceDispatchAt, mapGetD, htab]
    have hstats : mapGetD s.devices device emptyDeviceStats = stats := by
      simp [mapGetD, hdev]
    have hTy := vecAt_eq_some_vecAtD stats.memoryTypes info.memoryTypeIndex
      defaultMemoryTypeInfo hidx
    have hHp := vecAt_eq_some_vecAtD stats.memoryHeaps
      (vecAtD stats.memoryTypes info.memoryTypeIndex
        defaultMemoryTypeInfo).memoryType.heapIndex
      defaultMemoryHeapInfo hheap
    simp only [MemoryTrack_AllocateMemory, htabeq, if_neg hptr, hstats,
      allocUpdate, hTy, hHp]
    simp
  · intro getKey s device memory stats t hdev htab hptr hidx hheap
    have htabeq : deviceDispatchAt s.device_dispatch (getKey device) = t := by
      simp [deviceDispatchAt, mapGetD, htab]
    have hstats : mapGetD s.devices device emptyDeviceStats = stats := by
      simp [mapGetD, hdev]
    have hTy := vecAt_eq_some_vecAtD stats.memoryTypes
      (mapGetD s.allocations memory defaultAllocateInfo).memoryTypeIndex
      defaultMemoryTypeInfo hidx
    have hHp := vecAt_eq_some_vecAtD stats.memoryHeaps
      (vecAtD stats.memoryTypes
        (mapGetD s.allocations memory defaultAllocateInfo).memoryTypeIndex
        defaultMemoryTypeInfo).memoryType.heapIndex
      defaultMemoryHeapInfo hheap
    simp only [MemoryTrack_FreeMemory, hstats, freeUpdate, hTy, hHp, htabeq,
      if_neg hptr]
    simp

/-- Witness for C9: on the fully registered state both operations satisfy
the precondition and complete. -/
theorem c9_unchecked_indexing_witness :
    (MemoryTrack_AllocateMemory (fun h => h) sampleState 1
      { allocationSize := 16, memoryTypeIndex := 0 } VK_SUCCESS 7).isSome ∧
    (MemoryTrack_FreeMemory (fun h => h) sampleState 1 7).isSome :=
  ⟨c9_unchecked_indexing_in_bounds.1 (fun h => h) sampleState 1
    { allocationSize := 16, memoryTypeIndex := 0 } 7 sampleStats sampleTable
    rfl rfl (by decide) (by decide) (by decide),
   c9_unchecked_indexing_in_bounds.2.1 (fun h => h) sampleState 1 7
    sampleStats sampleTable rfl rfl (by decide) (by decide) (by decide)⟩
